import Mathlib

/-!
# Verification of the PDE contour visualizer

A shallow embedding of `code1.py` (class `PDEVisualizer`): sample-data
generation, static contour rendering, animated contour rendering and
multi-snapshot rendering.  Numeric scalars are modelled over an abstract
field (with abstract `sin`/`cos`/`exp`/`pi` operations) for the data
generator, and over an abstract linear order for the rendering operations
(which only compare values, via `min`/`max`).  Python list indexing
(including negative indices), `ZeroDivisionError` on integer floor
division and `ValueError` on the min/max of an empty array are modelled
explicitly; filesystem side effects are recorded as an ordered trace.
-/

set_option autoImplicit false
set_option linter.unusedVariables false

namespace PDEViz

/-- Errors surfaced by the array layer and by Python arithmetic. -/
inductive PyErr where
  | indexError
  | zeroDivisionError
  | valueError
  deriving DecidableEq, Repr

/-- Filesystem side effects performed by a rendering operation, in order. -/
inductive FsEffect where
  | mkdir (dir : String)
  | fileWritten (path : String)
  deriving DecidableEq, Repr

/-- A 2-D array, as a list of rows. -/
abbrev Grid (α : Type) : Type := List (List α)

/-- A 3-D array of shape `(nt, ny, nx)`, as a list of 2-D slices. -/
abbrev Tensor (α : Type) : Type := List (List (List α))

instance {ε α : Type} [DecidableEq ε] [DecidableEq α] :
    DecidableEq (Except ε α)
  | .error a, .error b =>
    if h : a = b then .isTrue (by rw [h]) else .isFalse (by simp [h])
  | .error _, .ok _ => .isFalse (by simp)
  | .ok _, .error _ => .isFalse (by simp)
  | .ok a, .ok b =>
    if h : a = b then .isTrue (by rw [h]) else .isFalse (by simp [h])

/-- The effective position of Python index `i` into a sequence of length
`n`: negative indices count from the end. -/
def pyIndex (n : ℕ) (i : ℤ) : ℤ :=
  if i < 0 then i + n else i

/-- Python indexing `l[i]` for an integer index: negative indices count
from the end; anything outside `[-len(l), len(l))` raises `IndexError`. -/
def pyGet {α : Type} (l : List α) (i : ℤ) : Except PyErr α :=
  if h : 0 ≤ pyIndex l.length i ∧ pyIndex l.length i < l.length then
    .ok (l.get ⟨(pyIndex l.length i).toNat, by omega⟩)
  else
    .error .indexError

/-- Models `ndarray.min()`: the least element, `ValueError` on an empty array. -/
def npMin {α : Type} [LinearOrder α] : List α → Except PyErr α
  | [] => .error .valueError
  | x :: xs => .ok (xs.foldl min x)

/-- Models `ndarray.max()`: the greatest element, `ValueError` on an empty array. -/
def npMax {α : Type} [LinearOrder α] : List α → Except PyErr α
  | [] => .error .valueError
  | x :: xs => .ok (xs.foldl max x)

/-- All elements of a rank-3 tensor (row-major), as flattened by
`u.min()` / `u.max()` over the whole array. -/
def tensorElems {α : Type} (u : Tensor α) : List α :=
  (u.map List.flatten).flatten

/-- The custom colormap: anchor colors and interpolation bin count
(`LinearSegmentedColormap.from_list('custom_coolwarm', colors, N=256)`). -/
structure Cmap where
  name : String
  colors : List String
  n_bins : ℕ
  deriving DecidableEq, Repr

/-- Models `setup_colormap`: the fixed 4-anchor, 256-bin gradient. -/
def setup_colormap : Cmap :=
  { name := "custom_coolwarm"
    colors := ["#2E86AB", "#A23B72", "#F18F01", "#C73E1D"]
    n_bins := 256 }

/-- The renderer configuration held by a `PDEVisualizer` instance. -/
structure PDEVisualizer where
  figsize : ℕ × ℕ
  dpi : ℕ
  custom_cmap : Cmap
  deriving DecidableEq, Repr

/-- Models `PDEVisualizer.__init__(figsize, dpi)`. -/
def PDEVisualizer.init (figsize : ℕ × ℕ) (dpi : ℕ) : PDEVisualizer :=
  { figsize := figsize, dpi := dpi, custom_cmap := setup_colormap }

/-! ## create_multiple_snapshots -/

/-- One subplot panel: the time index it renders, the color-scale bounds
passed to `contourf`, and the data slice drawn. -/
structure Panel (α : Type) where
  timeIdx : ℤ
  vmin : α
  vmax : α
  data : List (List α)
  deriving DecidableEq, Repr

/-- Result of a successful `create_multiple_snapshots` call: the subplot
grid shape, the per-slot visibility left after hiding unused slots, and
the rendered panels. -/
structure SnapResult (α : Type) where
  cols : ℕ
  rows : ℕ
  visible : List Bool
  panels : List (Panel α)
  deriving DecidableEq, Repr

/-- Full trace of a `create_multiple_snapshots` call: the values held by
the caller-visible variables after the call (`self`, `X`, `Y`, `t`, `u`),
the resolved snapshot index list, the filesystem effects in order, and
the outcome. -/
structure SnapRun (α : Type) where
  post : PDEVisualizer × Grid α × Grid α × List α × Tensor α
  times : List ℤ
  effects : List FsEffect
  outcome : Except PyErr (SnapResult α)
  deriving DecidableEq, Repr

/-- The subplot loop: for each requested time index, slice `u[time_idx]`
(propagating `IndexError`) and draw it with the shared `vmin`/`vmax`. -/
def renderPanels {α : Type} (u : Tensor α) (vmin vmax : α) :
    List ℤ → Except PyErr (List (Panel α))
  | [] => .ok []
  | ti :: rest =>
    match pyGet u ti with
    | .error e => .error e
    | .ok slice =>
      match renderPanels u vmin vmax rest with
      | .error e => .error e
      | .ok ps => .ok (Panel.mk ti vmin vmax slice :: ps)

/-- The body of `create_multiple_snapshots` after the snapshot index
list has been resolved.  Mirrors the source order: `os.makedirs`, grid
layout (floor division by `cols`, which raises `ZeroDivisionError` when
`cols = 0`), global `u.min()`/`u.max()`, the subplot loop, hiding of
unused slots, and the final `savefig`. -/
def snapshots_core {α : Type} [LinearOrder α]
    (self : PDEVisualizer) (X Y : Grid α) (t : List α)
    (u : Tensor α) (times : List ℤ)
    (save_dir : String) (timestamp : String) (levels : ℕ) : SnapRun α :=
  let n_plots := times.length
  let cols := min 2 n_plots
  { post := (self, X, Y, t, u)
    times := times
    effects :=
      if cols = 0 then [.mkdir save_dir]
      else
        match npMin (tensorElems u), npMax (tensorElems u) with
        | .ok vmin, .ok vmax =>
          (match renderPanels u vmin vmax times with
          | .ok _ => [.mkdir save_dir,
              .fileWritten (save_dir ++ "/snapshots_" ++ timestamp ++ ".png")]
          | .error _ => [.mkdir save_dir])
        | _, _ => [.mkdir save_dir]
    outcome :=
      if cols = 0 then .error .zeroDivisionError
      else
        let rows := (n_plots + cols - 1) / cols
        match npMin (tensorElems u), npMax (tensorElems u) with
        | .ok vmin, .ok vmax =>
          (match renderPanels u vmin vmax times with
          | .ok panels => .ok
              { cols := cols, rows := rows
                visible := (List.range (rows * cols)).map
                  (fun i => decide (i < n_plots))
                panels := panels }
          | .error e => .error e)
        | _, _ => .error .valueError }

/-- Models `create_multiple_snapshots(X, Y, t, u, snapshot_times,
save_dir, levels)`.  `timestamp` stands for `datetime.now().strftime(...)`, an
external input.  When `snapshot_times` is `None` the default selection
`[0, len(t)//3, 2*len(t)//3, len(t)-1]` is used. -/
def create_multiple_snapshots {α : Type} [LinearOrder α]
    (self : PDEVisualizer) (X Y : Grid α) (t : List α)
    (u : Tensor α) (snapshot_times : Option (List ℤ))
    (save_dir : String) (timestamp : String) (levels : ℕ) : SnapRun α :=
  let times : List ℤ :=
    match snapshot_times with
    | none => [0, ((t.length / 3 : ℕ) : ℤ), ((2 * t.length / 3 : ℕ) : ℤ),
        (t.length : ℤ) - 1]
    | some s => s
  snapshots_core self X Y t u times save_dir timestamp levels

/-! ## create_static_contour -/

/-- Result of a successful `create_static_contour` call: the data slice
drawn and the contouring parameters used. -/
structure StaticResult (α : Type) where
  slice : List (List α)
  levels : ℕ
  cmap : Cmap
  deriving DecidableEq, Repr

/-- Full trace of a `create_static_contour` call: caller-visible variable
values after the call, filesystem effects in order, and the outcome. -/
structure StaticRun (α : Type) where
  post : PDEVisualizer × Grid α × Grid α × Tensor α
  effects : List FsEffect
  outcome : Except PyErr (StaticResult α)
  deriving DecidableEq, Repr

/-- Models `create_static_contour(X, Y, u, time_idx, title,
save_path, levels)`.
The slice `u[time_idx]` is taken first (an out-of-range index raises
`IndexError` before anything touches the filesystem); the figure is then
saved exactly when `save_path` is supplied. -/
def create_static_contour {α : Type} (self : PDEVisualizer)
    (X Y : Grid α) (u : Tensor α) (time_idx : ℤ) (title : String)
    (save_path : Option String) (levels : ℕ) : StaticRun α :=
  { post := (self, X, Y, u)
    effects :=
      match pyGet u time_idx, save_path with
      | .ok _, some p => [.fileWritten p]
      | _, _ => []
    outcome := (pyGet u time_idx).map (fun slice =>
      { slice := slice, levels := levels, cmap := self.custom_cmap }) }

/-! ## create_animated_contour -/

/-- One animation frame: the frame index and the color-scale bounds the
`animate` closure passes to `contourf` for that frame. -/
structure AnimFrame (α : Type) where
  frameIdx : ℕ
  vmin : α
  vmax : α
  deriving DecidableEq, Repr

/-- Result of a successful `create_animated_contour` call. -/
structure AnimResult (α : Type) where
  frames : List (AnimFrame α)
  n_frames : ℕ
  looping : Bool
  deriving DecidableEq, Repr

/-- Full trace of a `create_animated_contour` call. -/
structure AnimRun (α : Type) where
  post : PDEVisualizer × Grid α × Grid α × List α × Tensor α
  effects : List FsEffect
  outcome : Except PyErr (AnimResult α)
  deriving DecidableEq, Repr

/-- Models `create_animated_contour(X, Y, t, u, title, save_gif,
gif_name, levels, interval)`.  Mirrors the source order: global `u.min()`/`u.max()`
first, the initial `contourf(X, Y, u[0], ...)`, the initial title using
`t[0]`, then one frame per element of `t`, each using the fixed
`vmin`/`vmax` captured by the `animate` closure; the GIF is written only
when `save_gif` is set. -/
def create_animated_contour {α : Type} [LinearOrder α]
    (self : PDEVisualizer) (X Y : Grid α) (t : List α) (u : Tensor α)
    (title : String) (save_gif : Bool) (gif_name : String)
    (levels : ℕ) (interval : ℕ) : AnimRun α :=
  { post := (self, X, Y, t, u)
    effects :=
      match npMin (tensorElems u), npMax (tensorElems u),
          pyGet u 0, pyGet t 0 with
      | .ok _, .ok _, .ok _, .ok _ =>
        if save_gif then [.fileWritten gif_name] else []
      | _, _, _, _ => []
    outcome :=
      match npMin (tensorElems u), npMax (tensorElems u) with
      | .ok vmin, .ok vmax =>
        (match pyGet u 0 with
        | .error e => .error e
        | .ok _ =>
          match pyGet t 0 with
          | .error e => .error e
          | .ok _ => .ok
              { frames := (List.range t.length).map
                  (fun f => AnimFrame.mk f vmin vmax)
                n_frames := t.length
                looping := true })
      | _, _ => .error .valueError }

/-! ## generate_sample_data -/

/-- The scalar operations the sample generator uses, kept abstract so the
embedding is parametric in the arithmetic carrier. -/
structure ScalarOps (α : Type) where
  sin : α → α
  cos : α → α
  exp : α → α
  pi : α

/-- Models `np.linspace(a, b, n)`: `n` evenly spaced points from `a` to `b`
inclusive (for `n = 1`, just `[a]`, since `0 / 0 = 0`). -/
def linspace {α : Type} [Field α] (a b : α) (n : ℕ) : List α :=
  (List.range n).map (fun i : ℕ => a + (b - a) * (i : α) / ((n : α) - 1))

/-- Models `np.meshgrid(x, y)` with default indexing: `X[j][k] = x[k]` and
`Y[j][k] = y[j]`, both of shape `(len(y), len(x))`. -/
def meshgrid {α : Type} (x y : List α) : Grid α × Grid α :=
  (y.map (fun _ => x), y.map (fun yj => x.map (fun _ => yj)))

/-- The loop body of `generate_sample_data` at one grid point: the base
wave assigned to `u[i]` plus the complexity term added by `u[i] +=`. -/
def sampleField {α : Type} [Field α] (ops : ScalarOps α)
    (time Xv Yv : α) : α :=
  let base := ops.sin (Xv + time) * ops.cos (Yv + (1 / 2) * time) *
    ops.exp (-(1 / 10) * time)
  base + (3 / 10) * ops.sin (2 * Xv - time) * ops.sin (Yv + time)

/-- The tuple `(X, Y, t, u)` returned by `generate_sample_data`. -/
structure SampleData (α : Type) where
  X : Grid α
  Y : Grid α
  t : List α
  u : Tensor α

/-- Models `generate_sample_data(nx, ny, nt)`: uniform spatial grid over
`[0, 2π] × [0, 2π]`, uniform time vector over `[0, 2]`, and for each time
step the elementwise field `sampleField` over the meshgrid. -/
def generate_sample_data {α : Type} [Field α] (ops : ScalarOps α)
    (nx ny nt : ℕ) : SampleData α :=
  let x := linspace 0 (2 * ops.pi) nx
  let y := linspace 0 (2 * ops.pi) ny
  let XY := meshgrid x y
  let t := linspace 0 2 nt
  let u := t.map (fun time =>
    List.zipWith (fun Xrow Yrow =>
      List.zipWith (fun Xv Yv => sampleField ops time Xv Yv) Xrow Yrow)
      XY.1 XY.2)
  SampleData.mk XY.1 XY.2 t u

/-! ## Basic lemmas about the Python array layer -/

theorem pyIndex_of_nonneg {n : ℕ} {i : ℤ} (h : 0 ≤ i) : pyIndex n i = i :=
  if_neg (by omega)

theorem pyIndex_of_neg {n : ℕ} {i : ℤ} (h : i < 0) : pyIndex n i = i + n :=
  if_pos h

/-- Indices at or beyond the length, or strictly below `-len`, raise. -/
theorem pyGet_oob {α : Type} {l : List α} {i : ℤ}
    (h : (l.length : ℤ) ≤ i ∨ i < -(l.length : ℤ)) :
    pyGet l i = .error .indexError := by
  have hc : ¬ (0 ≤ pyIndex l.length i ∧ pyIndex l.length i < l.length) := by
    unfold pyIndex; split <;> omega
  simp [pyGet, hc]

/-- In-range negative indices succeed and count from the end. -/
theorem pyGet_neg {α : Type} {l : List α} {i : ℤ}
    (h1 : -(l.length : ℤ) ≤ i) (h2 : i < 0) :
    pyGet l i = .ok (l.get ⟨(i + l.length).toNat, by omega⟩) := by
  have hc : 0 ≤ pyIndex l.length i ∧ pyIndex l.length i < l.length := by
    unfold pyIndex; split <;> omega
  rw [pyGet, dif_pos hc]
  simp only [pyIndex_of_neg h2]

/-- In-range nonnegative indices succeed. -/
theorem pyGet_nonneg {α : Type} {l : List α} {i : ℤ}
    (h0 : 0 ≤ i) (h : i < (l.length : ℤ)) :
    pyGet l i = .ok (l.get ⟨i.toNat, by omega⟩) := by
  have hc : 0 ≤ pyIndex l.length i ∧ pyIndex l.length i < l.length := by
    unfold pyIndex; split <;> omega
  rw [pyGet, dif_pos hc]
  simp only [pyIndex_of_nonneg h0]

/-! ## Claim theorems -/

/-- C10: calling `create_multiple_snapshots` with an empty (but non-None)
snapshot index list first performs the directory-creation side effect and
then raises `ZeroDivisionError` computing the row count (`cols = min 2 0
= 0`), so the effect trace is exactly the `mkdir` and no file is
written. -/
theorem snapshots_empty_selection_divzero {α : Type} [LinearOrder α]
    (self : PDEVisualizer) (X Y : Grid α) (t : List α) (u : Tensor α)
    (save_dir timestamp : String) (levels : ℕ) :
    (create_multiple_snapshots self X Y t u (some []) save_dir timestamp
        levels).effects = [.mkdir save_dir] ∧
    (create_multiple_snapshots self X Y t u (some []) save_dir timestamp
        levels).outcome = .error .zeroDivisionError :=
  ⟨rfl, rfl⟩

/-- C4: with no snapshot index list, `create_multiple_snapshots` selects
exactly the four indices `0`, `nt//3`, `2*nt//3`, `nt-1` where `nt` is
the length of the time vector; for `nt = 25` these are `0, 8, 16, 24`. -/
theorem snapshots_default_selection {α : Type} [LinearOrder α]
    (self : PDEVisualizer) (X Y : Grid α) (t : List α) (u : Tensor α)
    (save_dir timestamp : String) (levels : ℕ) :
    (create_multiple_snapshots self X Y t u none save_dir timestamp
        levels).times =
      [0, ((t.length / 3 : ℕ) : ℤ), ((2 * t.length / 3 : ℕ) : ℤ),
        (t.length : ℤ) - 1] ∧
    (t.length = 25 →
      (create_multiple_snapshots self X Y t u none save_dir timestamp
        levels).times = [0, 8, 16, 24]) := by
  refine ⟨rfl, fun h => ?_⟩
  have h1 : (create_multiple_snapshots self X Y t u none save_dir
      timestamp levels).times =
      [0, ((t.length / 3 : ℕ) : ℤ), ((2 * t.length / 3 : ℕ) : ℤ),
        (t.length : ℤ) - 1] := rfl
  rw [h1, h]
  decide

/-- Witness for C4 at a concrete time vector of length 25. -/
theorem snapshots_default_selection_witness :
    (List.replicate 25 (0 : ℤ)).length = 25 ∧
    (create_multiple_snapshots (PDEVisualizer.init (12, 8) 100)
        [[0]] [[0]] (List.replicate 25 (0 : ℤ)) [[[1]]] none
        "snapshots" "20251012" 20).times = [0, 8, 16, 24] :=
  ⟨by decide,
    (snapshots_default_selection (PDEVisualizer.init (12, 8) 100)
      [[0]] [[0]] (List.replicate 25 (0 : ℤ)) [[[1]]]
      "snapshots" "20251012" 20).2 (by decide)⟩

/-- C7: none of the three rendering operations mutates the renderer
configuration or the arrays passed in: the caller-visible state after
each call is exactly the state before it. -/
theorem rendering_ops_mutation_free {α : Type} [LinearOrder α]
    (self : PDEVisualizer) (X Y : Grid α) (t : List α) (u : Tensor α)
    (time_idx : ℤ) (title : String) (save_path : Option String)
    (snapshot_times : Option (List ℤ)) (save_gif : Bool)
    (gif_name save_dir timestamp : String) (levels interval : ℕ) :
    (create_static_contour self X Y u time_idx title save_path
        levels).post = (self, X, Y, u) ∧
    (create_animated_contour self X Y t u title save_gif gif_name levels
        interval).post = (self, X, Y, t, u) ∧
    (create_multiple_snapshots self X Y t u snapshot_times save_dir
        timestamp levels).post = (self, X, Y, t, u) :=
  ⟨rfl, rfl, rfl⟩

/-- C8: `generate_sample_data` is deterministic: two calls with equal
arguments produce equal outputs (the embedding takes no hidden state and
uses no randomness). -/
theorem generate_sample_data_deterministic {α : Type} [Field α]
    (ops : ScalarOps α) (nx₁ ny₁ nt₁ nx₂ ny₂ nt₂ : ℕ)
    (h1 : nx₁ = nx₂) (h2 : ny₁ = ny₂) (h3 : nt₁ = nt₂) :
    generate_sample_data ops nx₁ ny₁ nt₁ =
      generate_sample_data ops nx₂ ny₂ nt₂ := by
  rw [h1, h2, h3]

/-- Witness for C8 at concrete arguments. -/
theorem generate_sample_data_deterministic_witness :
    ((2 : ℕ) = 2 ∧ (3 : ℕ) = 3 ∧ (4 : ℕ) = 4) ∧
    generate_sample_data (ScalarOps.mk id id id 0 : ScalarOps ℚ) 2 3 4 =
      generate_sample_data (ScalarOps.mk id id id 0 : ScalarOps ℚ) 2 3 4 :=
  ⟨⟨rfl, rfl, rfl⟩,
    generate_sample_data_deterministic (ScalarOps.mk id id id 0) 2 3 4
      2 3 4 rfl rfl rfl⟩

/-- C6 as stated is false: `time_idx = -1` lies outside `[0, nt)` for
`nt = 2`, yet `create_static_contour` raises no error (Python negative
indexing selects `u[1]`) and the output file is written. -/
theorem static_oob_claim_counterexample :
    ((-1 : ℤ) < 0 ∨ (2 : ℤ) ≤ -1) ∧
    (create_static_contour (PDEVisualizer.init (12, 8) 100) [[0]] [[0]]
        ([[[1]], [[2]]] : Tensor ℤ) (-1) "PDE Solution"
        (some "static_contour.png") 20).outcome =
      .ok { slice := [[2]], levels := 20, cmap := setup_colormap } ∧
    (create_static_contour (PDEVisualizer.init (12, 8) 100) [[0]] [[0]]
        ([[[1]], [[2]]] : Tensor ℤ) (-1) "PDE Solution"
        (some "static_contour.png") 20).effects =
      [.fileWritten "static_contour.png"] :=
  ⟨by decide, by decide, by decide⟩

/-- C6 (amended): for `time_idx ≥ nt` or `time_idx < -nt` — the indices
Python actually rejects — `create_static_contour` raises `IndexError`
from the array access and performs no filesystem effect even when a save
path is supplied. -/
theorem static_oob_index_error {α : Type} (self : PDEVisualizer)
    (X Y : Grid α) (u : Tensor α) (time_idx : ℤ) (title : String)
    (save_path : Option String) (levels : ℕ)
    (h : (u.length : ℤ) ≤ time_idx ∨ time_idx < -(u.length : ℤ)) :
    (create_static_contour self X Y u time_idx title save_path
        levels).outcome = .error .indexError ∧
    (create_static_contour self X Y u time_idx title save_path
        levels).effects = [] := by
  have hp := pyGet_oob (l := u) (i := time_idx) h
  constructor
  · simp [create_static_contour, hp, Except.map]
  · simp [create_static_contour, hp]

/-- Witness for the amended C6 at `nt = 2`, `time_idx = 5`. -/
theorem static_oob_index_error_witness :
    ((2 : ℤ) ≤ 5 ∨ (5 : ℤ) < -2) ∧
    ((create_static_contour (PDEVisualizer.init (12, 8) 100) [[0]] [[0]]
        ([[[1]], [[2]]] : Tensor ℤ) 5 "PDE Solution"
        (some "static_contour.png") 20).outcome = .error .indexError ∧
      (create_static_contour (PDEVisualizer.init (12, 8) 100) [[0]] [[0]]
        ([[[1]], [[2]]] : Tensor ℤ) 5 "PDE Solution"
        (some "static_contour.png") 20).effects = []) :=
  ⟨by decide,
    static_oob_index_error (PDEVisualizer.init (12, 8) 100) [[0]] [[0]]
      ([[[1]], [[2]]] : Tensor ℤ) 5 "PDE Solution"
      (some "static_contour.png") 20 (by decide)⟩

/-- C9: for `-nt ≤ time_idx ≤ -1`, `create_static_contour` raises no
error: the slice `u[nt + time_idx]` is rendered, and with a save path
supplied the image file is written, although such an index lies outside
the stated precondition range `[0, nt)`. -/
theorem static_negative_index_renders {α : Type} (self : PDEVisualizer)
    (X Y : Grid α) (u : Tensor α) (time_idx : ℤ) (title : String)
    (p : String) (levels : ℕ)
    (h1 : -(u.length : ℤ) ≤ time_idx) (h2 : time_idx ≤ -1) :
    (∃ r, (create_static_contour self X Y u time_idx title (some p)
          levels).outcome = .ok r ∧
        r.slice = u.getD (((u.length : ℤ) + time_idx).toNat) []) ∧
    (create_static_contour self X Y u time_idx title (some p)
        levels).effects = [.fileWritten p] := by
  have hp := pyGet_neg (l := u) (i := time_idx) h1 (by omega)
  have hlt : (time_idx + (u.length : ℤ)).toNat < u.length := by omega
  refine ⟨⟨StaticResult.mk
    (u.get ⟨(time_idx + (u.length : ℤ)).toNat, hlt⟩) levels
    self.custom_cmap, ?_, ?_⟩, ?_⟩
  · simp [create_static_contour, hp, Except.map]
  · have hidx : ((u.length : ℤ) + time_idx).toNat =
        (time_idx + (u.length : ℤ)).toNat := by omega
    rw [hidx, List.getD_eq_getElem _ _ hlt]
    simp [List.get_eq_getElem]
  · simp [create_static_contour, hp]

/-- Witness for C9 at `nt = 2`, `time_idx = -1`. -/
theorem static_negative_index_renders_witness :
    (-(2 : ℤ) ≤ -1 ∧ (-1 : ℤ) ≤ -1) ∧
    ((∃ r, (create_static_contour (PDEVisualizer.init (12, 8) 100)
          [[0]] [[0]] ([[[1]], [[2]]] : Tensor ℤ) (-1) "PDE Solution"
          (some "static_contour.png") 20).outcome = .ok r ∧
        r.slice = ([[[1]], [[2]]] : Tensor ℤ).getD
          ((((([[[1]], [[2]]] : Tensor ℤ).length : ℤ) + -1)).toNat) []) ∧
      (create_static_contour (PDEVisualizer.init (12, 8) 100)
        [[0]] [[0]] ([[[1]], [[2]]] : Tensor ℤ) (-1) "PDE Solution"
        (some "static_contour.png") 20).effects =
        [.fileWritten "static_contour.png"]) :=
  ⟨⟨by decide, by decide⟩,
    static_negative_index_renders (PDEVisualizer.init (12, 8) 100)
      [[0]] [[0]] ([[[1]], [[2]]] : Tensor ℤ) (-1) "PDE Solution"
      "static_contour.png" 20 (by decide) (by decide)⟩

/-! ## Inversion lemmas for successful rendering runs -/

/-- Every panel produced by the subplot loop carries the `vmin`/`vmax`
the loop was given. -/
theorem renderPanels_ok_scale {α : Type} {u : Tensor α} {vmin vmax : α} :
    ∀ {ts : List ℤ} {ps : List (Panel α)},
      renderPanels u vmin vmax ts = .ok ps →
      ∀ p ∈ ps, p.vmin = vmin ∧ p.vmax = vmax := by
  intro ts
  induction ts with
  | nil =>
    intro ps h p hp
    simp only [renderPanels] at h
    injection h with h
    subst h
    simp at hp
  | cons ti rest ih =>
    intro ps h p hp
    simp only [renderPanels] at h
    cases hg : pyGet u ti with
    | error e => rw [hg] at h; cases h
    | ok slice =>
      rw [hg] at h
      cases hr : renderPanels u vmin vmax rest with
      | error e => rw [hr] at h; cases h
      | ok ps' =>
        rw [hr] at h
        injection h with h
        subst h
        rcases List.mem_cons.mp hp with hhd | htl
        · subst hhd; exact ⟨rfl, rfl⟩
        · exact ih hr p htl

/-- Inverting a successful `snapshots_core` run: the color bounds are the
global tensor min/max, the panels come from the subplot loop with those
bounds, and the grid fields are as computed in the layout step. -/
theorem snapshots_core_ok_inv {α : Type} [LinearOrder α]
    {self : PDEVisualizer} {X Y : Grid α} {t : List α} {u : Tensor α}
    {times : List ℤ} {save_dir timestamp : String} {levels : ℕ}
    {r : SnapResult α}
    (h : (snapshots_core self X Y t u times save_dir timestamp
        levels).outcome = .ok r) :
    ∃ vmin vmax,
      npMin (tensorElems u) = .ok vmin ∧
      npMax (tensorElems u) = .ok vmax ∧
      renderPanels u vmin vmax times = .ok r.panels ∧
      r.cols = min 2 times.length ∧
      r.rows = (times.length + min 2 times.length - 1) /
        min 2 times.length ∧
      r.visible = (List.range (r.rows * r.cols)).map
        (fun i => decide (i < times.length)) := by
  simp only [snapshots_core] at h
  by_cases hc : min 2 times.length = 0
  · rw [if_pos hc] at h; cases h
  · rw [if_neg hc] at h
    split at h
    · split at h
      · rename_i x1 x2 vmin vmax hmin hmax x3 panels hrp
        injection h with h
        subst h
        exact ⟨vmin, vmax, hmin, hmax, hrp, rfl, rfl, rfl⟩
      · cases h
    · cases h

/-- Every panel of a successful `snapshots_core` run is drawn with the
global tensor min/max as its color bounds. -/
theorem snapshots_core_panels_scale {α : Type} [LinearOrder α]
    {self : PDEVisualizer} {X Y : Grid α} {t : List α} {u : Tensor α}
    {times : List ℤ} {save_dir timestamp : String} {levels : ℕ}
    {r : SnapResult α}
    (h : (snapshots_core self X Y t u times save_dir timestamp
        levels).outcome = .ok r) :
    ∀ p ∈ r.panels,
      npMin (tensorElems u) = .ok p.vmin ∧
      npMax (tensorElems u) = .ok p.vmax := by
  rcases snapshots_core_ok_inv h with
    ⟨vmin, vmax, hmin, hmax, hrp, _, _, _⟩
  intro p hp
  rcases renderPanels_ok_scale hrp p hp with ⟨h1, h2⟩
  rw [h1, h2]
  exact ⟨hmin, hmax⟩

/-- C1: the color scale used by `create_animated_contour` for every
frame and by `create_multiple_snapshots` for every subplot is the pair
`(min, max)` computed once over the entire field tensor, whatever
frames exist and whichever snapshot indices are selected. -/
theorem global_color_scale {α : Type} [LinearOrder α]
    (self : PDEVisualizer) (X Y : Grid α) (t : List α) (u : Tensor α)
    (title : String) (save_gif : Bool) (gif_name : String)
    (levels interval : ℕ) (snapshot_times : Option (List ℤ))
    (save_dir timestamp : String) (levels' : ℕ)
    (ra : AnimResult α) (rs : SnapResult α)
    (ha : (create_animated_contour self X Y t u title save_gif gif_name
        levels interval).outcome = .ok ra)
    (hb : (create_multiple_snapshots self X Y t u snapshot_times
        save_dir timestamp levels').outcome = .ok rs) :
    (∀ fr ∈ ra.frames,
      npMin (tensorElems u) = .ok fr.vmin ∧
      npMax (tensorElems u) = .ok fr.vmax) ∧
    (∀ p ∈ rs.panels,
      npMin (tensorElems u) = .ok p.vmin ∧
      npMax (tensorElems u) = .ok p.vmax) := by
  constructor
  · simp only [create_animated_contour] at ha
    split at ha
    · split at ha
      · cases ha
      · split at ha
        · cases ha
        · injection ha with ha
          subst ha
          intro fr hfr
          rcases List.mem_map.mp hfr with ⟨f, _, hf⟩
          subst hf
          refine ⟨?_, ?_⟩ <;> assumption
    · cases ha
  · cases snapshot_times with
    | none =>
      have hb' : (snapshots_core self X Y t u
          [0, ((t.length / 3 : ℕ) : ℤ), ((2 * t.length / 3 : ℕ) : ℤ),
            (t.length : ℤ) - 1] save_dir timestamp levels').outcome =
          .ok rs := hb
      exact snapshots_core_panels_scale hb'
    | some s =>
      have hb' : (snapshots_core self X Y t u s save_dir timestamp
          levels').outcome = .ok rs := hb
      exact snapshots_core_panels_scale hb'

/-- Witness for C1 at a concrete tensor whose per-slice extrema differ
from the global extrema. -/
theorem global_color_scale_witness :
    ((create_animated_contour (PDEVisualizer.init (12, 8) 100)
        [[0]] [[0]] [10, 20] ([[[1, 5]], [[3, 2]]] : Tensor ℤ)
        "Dynamic PDE Evolution" true "pde_evolution.gif" 20 200).outcome =
      .ok (AnimResult.mk [AnimFrame.mk 0 1 5, AnimFrame.mk 1 1 5] 2 true) ∧
     (create_multiple_snapshots (PDEVisualizer.init (12, 8) 100)
        [[0]] [[0]] [10, 20] ([[[1, 5]], [[3, 2]]] : Tensor ℤ)
        (some [0, 1]) "snapshots" "20251012" 20).outcome =
      .ok (SnapResult.mk 2 1 [true, true]
        [Panel.mk 0 1 5 [[1, 5]], Panel.mk 1 1 5 [[3, 2]]])) ∧
    ((∀ fr ∈ (AnimResult.mk [AnimFrame.mk 0 1 5, AnimFrame.mk 1 1 5]
          2 true : AnimResult ℤ).frames,
        npMin (tensorElems ([[[1, 5]], [[3, 2]]] : Tensor ℤ)) = .ok fr.vmin ∧
        npMax (tensorElems ([[[1, 5]], [[3, 2]]] : Tensor ℤ)) = .ok fr.vmax) ∧
      (∀ p ∈ (SnapResult.mk 2 1 [true, true]
          [Panel.mk 0 1 5 [[1, 5]], Panel.mk 1 1 5 [[3, 2]]] :
            SnapResult ℤ).panels,
        npMin (tensorElems ([[[1, 5]], [[3, 2]]] : Tensor ℤ)) = .ok p.vmin ∧
        npMax (tensorElems ([[[1, 5]], [[3, 2]]] : Tensor ℤ)) = .ok p.vmax)) :=
  ⟨⟨by decide, by decide⟩,
    global_color_scale (PDEVisualizer.init (12, 8) 100)
      [[0]] [[0]] [10, 20] ([[[1, 5]], [[3, 2]]] : Tensor ℤ)
      "Dynamic PDE Evolution" true "pde_evolution.gif" 20 200
      (some [0, 1]) "snapshots" "20251012" 20
      (AnimResult.mk [AnimFrame.mk 0 1 5, AnimFrame.mk 1 1 5] 2 true)
      (SnapResult.mk 2 1 [true, true]
        [Panel.mk 0 1 5 [[1, 5]], Panel.mk 1 1 5 [[3, 2]]])
      (by decide) (by decide)⟩

/-- C5: for a non-empty requested index list of length `n`, a successful
`create_multiple_snapshots` run lays out `min 2 n` columns, the least
number of rows covering all `n` plots (the ceiling of `n / cols`), and
hides exactly the slots beyond the first `n`; a list of length 5 gives a
2-column × 3-row grid with exactly one hidden slot. -/
theorem snapshots_grid_layout {α : Type} [LinearOrder α]
    (self : PDEVisualizer) (X Y : Grid α) (t : List α) (u : Tensor α)
    (s : List ℤ) (save_dir timestamp : String) (levels : ℕ)
    (r : SnapResult α) (hs : s ≠ [])
    (h : (create_multiple_snapshots self X Y t u (some s) save_dir
        timestamp levels).outcome = .ok r) :
    r.cols = min 2 s.length ∧
    s.length ≤ r.rows * r.cols ∧
    r.rows * r.cols < s.length + r.cols ∧
    (∀ i, i < r.rows * r.cols →
      r.visible.getD i false = decide (i < s.length)) ∧
    (s.length = 5 →
      r.cols = 2 ∧ r.rows = 3 ∧ r.visible.count false = 1) := by
  have hn1 : 1 ≤ s.length := List.length_pos.mpr hs
  have h' : (snapshots_core self X Y t u s save_dir timestamp
      levels).outcome = .ok r := h
  rcases snapshots_core_ok_inv h' with
    ⟨vmin, vmax, hmin, hmax, hrp, hcols, hrows, hvis⟩
  refine ⟨hcols, ?_, ?_, ?_, ?_⟩
  · rw [hrows, hcols]
    rcases Nat.lt_or_ge s.length 2 with hlt | hge
    · have h1 : s.length = 1 := by omega
      rw [h1]; decide
    · have h2 : min 2 s.length = 2 := by omega
      rw [h2]; omega
  · rw [hrows, hcols]
    rcases Nat.lt_or_ge s.length 2 with hlt | hge
    · have h1 : s.length = 1 := by omega
      rw [h1]; decide
    · have h2 : min 2 s.length = 2 := by omega
      rw [h2]; omega
  · intro i hi
    rw [hvis, List.getD_eq_getElem _ _ (by simpa using hi)]
    simp
  · intro h5
    have hc2 : r.cols = 2 := by rw [hcols, h5]; decide
    have hr3 : r.rows = 3 := by rw [hrows, h5]; decide
    refine ⟨hc2, hr3, ?_⟩
    rw [hvis, hc2, hr3, h5]
    decide

/-- Witness for C5 at a concrete successful run with five requested
indices. -/
theorem snapshots_grid_layout_witness :
    (([0, 0, 0, 0, 0] : List ℤ) ≠ [] ∧
     (create_multiple_snapshots (PDEVisualizer.init (12, 8) 100)
        [[0]] [[0]] [7] ([[[1]]] : Tensor ℤ) (some [0, 0, 0, 0, 0])
        "snapshots" "20251012" 20).outcome =
      .ok (SnapResult.mk 2 3 [true, true, true, true, true, false]
        (List.replicate 5 (Panel.mk 0 1 1 [[1]])))) ∧
    ((SnapResult.mk 2 3 [true, true, true, true, true, false]
        (List.replicate 5 (Panel.mk 0 1 1 [[1]])) : SnapResult ℤ).cols =
      min 2 ([0, 0, 0, 0, 0] : List ℤ).length ∧
     ([0, 0, 0, 0, 0] : List ℤ).length ≤ 3 * 2 ∧
     3 * 2 < ([0, 0, 0, 0, 0] : List ℤ).length + 2 ∧
     (∀ i, i < 3 * 2 →
       ([true, true, true, true, true, false] : List Bool).getD i false =
         decide (i < ([0, 0, 0, 0, 0] : List ℤ).length)) ∧
     (([0, 0, 0, 0, 0] : List ℤ).length = 5 →
       (2 : ℕ) = 2 ∧ (3 : ℕ) = 3 ∧
       ([true, true, true, true, true, false] : List Bool).count false
         = 1)) :=
  ⟨⟨by decide, by decide⟩,
    snapshots_grid_layout (PDEVisualizer.init (12, 8) 100)
      [[0]] [[0]] [7] ([[[1]]] : Tensor ℤ) [0, 0, 0, 0, 0]
      "snapshots" "20251012" 20
      (SnapResult.mk 2 3 [true, true, true, true, true, false]
        (List.replicate 5 (Panel.mk 0 1 1 [[1]])))
      (by decide) (by decide)⟩

/-! ## Shape and value lemmas for the sample generator -/

/-- Elements of a `zipWith` arise from elements of the two inputs. -/
theorem mem_zipWith_imp {α β γ : Type} {f : α → β → γ} :
    ∀ {l1 : List α} {l2 : List β} {c : γ}, c ∈ List.zipWith f l1 l2 →
      ∃ a b, a ∈ l1 ∧ b ∈ l2 ∧ c = f a b := by
  intro l1
  induction l1 with
  | nil => intro l2 c h; simp at h
  | cons a as ih =>
    intro l2 c h
    cases l2 with
    | nil => simp at h
    | cons b bs =>
      rw [List.zipWith_cons_cons] at h
      rcases List.mem_cons.mp h with h1 | h2
      · exact ⟨a, b, List.mem_cons_self a as, List.mem_cons_self b bs, h1⟩
      · rcases ih h2 with ⟨x, y, hx, hy, hc⟩
        exact ⟨x, y, List.mem_cons_of_mem _ hx,
          List.mem_cons_of_mem _ hy, hc⟩

/-- C2: for `nx, ny, nt ≥ 1`, `generate_sample_data` returns `X` and `Y`
of shape `(ny, nx)`, a time vector of length `nt`, and a field of shape
`(nt, ny, nx)`. -/
theorem generate_sample_data_shapes {α : Type} [Field α]
    (ops : ScalarOps α) (nx ny nt : ℕ)
    (hx : 1 ≤ nx) (hy : 1 ≤ ny) (ht : 1 ≤ nt) :
    ((generate_sample_data ops nx ny nt).X.length = ny ∧
      ∀ row ∈ (generate_sample_data ops nx ny nt).X, row.length = nx) ∧
    ((generate_sample_data ops nx ny nt).Y.length = ny ∧
      ∀ row ∈ (generate_sample_data ops nx ny nt).Y, row.length = nx) ∧
    (generate_sample_data ops nx ny nt).t.length = nt ∧
    ((generate_sample_data ops nx ny nt).u.length = nt ∧
      ∀ s ∈ (generate_sample_data ops nx ny nt).u,
        s.length = ny ∧ ∀ row ∈ s, row.length = nx) := by
  refine ⟨⟨?_, ?_⟩, ⟨?_, ?_⟩, ?_, ?_, ?_⟩
  · simp only [generate_sample_data, meshgrid, linspace,
      List.length_map, List.length_range]
  · intro row hrow
    simp only [generate_sample_data, meshgrid, List.mem_map] at hrow
    rcases hrow with ⟨a, _, hrow⟩
    rw [← hrow]
    simp only [linspace, List.length_map, List.length_range]
  · simp only [generate_sample_data, meshgrid, linspace,
      List.length_map, List.length_range]
  · intro row hrow
    simp only [generate_sample_data, meshgrid, List.mem_map] at hrow
    rcases hrow with ⟨a, _, hrow⟩
    rw [← hrow]
    simp only [linspace, List.length_map, List.length_range]
  · simp only [generate_sample_data, linspace, List.length_map,
      List.length_range]
  · simp only [generate_sample_data, meshgrid, linspace,
      List.length_map, List.length_range]
  · intro s hs
    simp only [generate_sample_data, List.mem_map] at hs
    rcases hs with ⟨time, _, hs⟩
    rw [← hs]
    constructor
    · simp only [meshgrid, linspace, List.length_zipWith,
        List.length_map, List.length_range, min_self]
    · intro row hrow
      rcases mem_zipWith_imp hrow with ⟨Xrow, Yrow, hX, hY, hr⟩
      simp only [meshgrid, List.mem_map] at hX hY
      rcases hX with ⟨a, _, hX⟩
      rcases hY with ⟨b, _, hY⟩
      rw [hr, ← hX, ← hY]
      simp only [linspace, List.length_zipWith, List.length_map,
        List.length_range, min_self]

/-- Witness for C2 at `nx = 2`, `ny = 3`, `nt = 4`. -/
theorem generate_sample_data_shapes_witness :
    ((1 : ℕ) ≤ 2 ∧ (1 : ℕ) ≤ 3 ∧ (1 : ℕ) ≤ 4) ∧
    (((generate_sample_data (ScalarOps.mk id id id 0 : ScalarOps ℚ)
          2 3 4).X.length = 3 ∧
      ∀ row ∈ (generate_sample_data (ScalarOps.mk id id id 0 :
          ScalarOps ℚ) 2 3 4).X, row.length = 2) ∧
     ((generate_sample_data (ScalarOps.mk id id id 0 : ScalarOps ℚ)
          2 3 4).Y.length = 3 ∧
      ∀ row ∈ (generate_sample_data (ScalarOps.mk id id id 0 :
          ScalarOps ℚ) 2 3 4).Y, row.length = 2) ∧
     (generate_sample_data (ScalarOps.mk id id id 0 : ScalarOps ℚ)
        2 3 4).t.length = 4 ∧
     ((generate_sample_data (ScalarOps.mk id id id 0 : ScalarOps ℚ)
          2 3 4).u.length = 4 ∧
      ∀ s ∈ (generate_sample_data (ScalarOps.mk id id id 0 :
          ScalarOps ℚ) 2 3 4).u,
        s.length = 3 ∧ ∀ row ∈ s, row.length = 2)) :=
  ⟨⟨by decide, by decide, by decide⟩,
    generate_sample_data_shapes (ScalarOps.mk id id id 0 : ScalarOps ℚ)
      2 3 4 (by decide) (by decide) (by decide)⟩

/-- The `k`-th point of `np.linspace(a, b, n)`. -/
theorem linspace_getD {α : Type} [Field α] (a b : α) {n k : ℕ}
    (hk : k < n) (d : α) :
    (linspace a b n).getD k d = a + (b - a) * (k : α) / ((n : α) - 1) := by
  rw [linspace, List.getD_eq_getElem _ _ (by
    simp only [List.length_map, List.length_range]; omega)]
  simp [List.getElem_map, List.getElem_range]

/-- Pushing `getD` through a `zipWith` at indices inside both inputs. -/
theorem getD_zipWith {α β γ : Type} (f : α → β → γ)
    {l1 : List α} {l2 : List β} {i : ℕ} (h1 : i < l1.length)
    (h2 : i < l2.length) (d1 : α) (d2 : β) (d : γ) :
    (List.zipWith f l1 l2).getD i d = f (l1.getD i d1) (l2.getD i d2) := by
  rw [List.getD_eq_getElem _ _ (by
      simp only [List.length_zipWith]; omega),
    List.getElem_zipWith, List.getD_eq_getElem _ _ h1,
    List.getD_eq_getElem _ _ h2]

/-- C3: `generate_sample_data` builds `X`, `Y` from uniform ranges of
`nx`, `ny` points over `[0, 2π]`, a uniform time vector of `nt` points
over `[0, 2]`, and sets `field[i]` pointwise to
`sin(X+t)·cos(Y+0.5t)·exp(−0.1t) + 0.3·sin(2X−t)·sin(Y+t)`. -/
theorem generate_sample_data_values {α : Type} [Field α]
    (ops : ScalarOps α) (nx ny nt i j k : ℕ)
    (hi : i < nt) (hj : j < ny) (hk : k < nx) :
    ((generate_sample_data ops nx ny nt).X.getD j []).getD k 0 =
        2 * ops.pi * (k : α) / ((nx : α) - 1) ∧
    ((generate_sample_data ops nx ny nt).Y.getD j []).getD k 0 =
        2 * ops.pi * (j : α) / ((ny : α) - 1) ∧
    (generate_sample_data ops nx ny nt).t.getD i 0 =
        2 * (i : α) / ((nt : α) - 1) ∧
    (((generate_sample_data ops nx ny nt).u.getD i []).getD j []).getD k 0
      = ops.sin (2 * ops.pi * (k : α) / ((nx : α) - 1) +
          2 * (i : α) / ((nt : α) - 1)) *
        ops.cos (2 * ops.pi * (j : α) / ((ny : α) - 1) +
          (1 / 2) * (2 * (i : α) / ((nt : α) - 1))) *
        ops.exp (-(1 / 10) * (2 * (i : α) / ((nt : α) - 1))) +
      (3 / 10) * ops.sin (2 * (2 * ops.pi * (k : α) / ((nx : α) - 1)) -
          2 * (i : α) / ((nt : α) - 1)) *
        ops.sin (2 * ops.pi * (j : α) / ((ny : α) - 1) +
          2 * (i : α) / ((nt : α) - 1)) := by
  have hlenx : (linspace (0 : α) (2 * ops.pi) nx).length = nx := by
    simp only [linspace, List.length_map, List.length_range]
  have hleny : (linspace (0 : α) (2 * ops.pi) ny).length = ny := by
    simp only [linspace, List.length_map, List.length_range]
  have hlent : (linspace (0 : α) 2 nt).length = nt := by
    simp only [linspace, List.length_map, List.length_range]
  have hxk : (linspace (0 : α) (2 * ops.pi) nx).getD k 0 =
      2 * ops.pi * (k : α) / ((nx : α) - 1) := by
    rw [linspace_getD (0 : α) (2 * ops.pi) hk 0]; ring
  have hyj : (linspace (0 : α) (2 * ops.pi) ny).getD j 0 =
      2 * ops.pi * (j : α) / ((ny : α) - 1) := by
    rw [linspace_getD (0 : α) (2 * ops.pi) hj 0]; ring
  have hti : (linspace (0 : α) 2 nt).getD i 0 =
      2 * (i : α) / ((nt : α) - 1) := by
    rw [linspace_getD (0 : α) 2 hi 0]; ring
  have hbX : j < (List.map (fun _ => linspace (0 : α) (2 * ops.pi) nx) (linspace (0 : α) (2 * ops.pi) ny)).length := by rw [List.length_map, hleny]; exact hj
  have hbY : j < (List.map (fun yj => List.map (fun _ => yj) (linspace (0 : α) (2 * ops.pi) nx)) (linspace (0 : α) (2 * ops.pi) ny)).length := by rw [List.length_map, hleny]; exact hj
  have hbYj : j < (linspace (0 : α) (2 * ops.pi) ny).length := by rw [hleny]; exact hj
  have hbC : k < (List.map (fun _ => (linspace (0 : α) (2 * ops.pi) ny).getD j 0) (linspace (0 : α) (2 * ops.pi) nx)).length := by rw [List.length_map, hlenx]; exact hk
  have hXrow : (generate_sample_data ops nx ny nt).X.getD j [] =
      linspace (0 : α) (2 * ops.pi) nx := by
    simp only [generate_sample_data, meshgrid]
    rw [List.getD_eq_getElem _ _ hbX, List.getElem_map]
  have hYrow : (generate_sample_data ops nx ny nt).Y.getD j [] =
      (linspace (0 : α) (2 * ops.pi) nx).map
        (fun _ => (linspace (0 : α) (2 * ops.pi) ny).getD j 0) := by
    simp only [generate_sample_data, meshgrid]
    rw [List.getD_eq_getElem _ _ hbY,
      List.getD_eq_getElem _ _ hbYj, List.getElem_map]
  have hconst : ((linspace (0 : α) (2 * ops.pi) nx).map
      (fun _ => (linspace (0 : α) (2 * ops.pi) ny).getD j 0)).getD k 0 =
      (linspace (0 : α) (2 * ops.pi) ny).getD j 0 := by
    rw [List.getD_eq_getElem _ _ hbC, List.getElem_map]
  refine ⟨?_, ?_, ?_, ?_⟩
  · rw [hXrow, hxk]
  · rw [hYrow, hconst, hyj]
  · show (linspace (0 : α) 2 nt).getD i 0 = _
    exact hti
  · have hbti : i < (linspace (0 : α) 2 nt).length := by rw [hlent]; exact hi
    have hui : (generate_sample_data ops nx ny nt).u.getD i [] =
        List.zipWith (fun Xrow Yrow => List.zipWith
            (fun Xv Yv => sampleField ops
              ((linspace (0 : α) 2 nt).getD i 0) Xv Yv) Xrow Yrow)
          ((generate_sample_data ops nx ny nt).X)
          ((generate_sample_data ops nx ny nt).Y) := by
      simp only [generate_sample_data, meshgrid]
      have hbu : i < (List.map (fun time => List.zipWith (fun Xrow Yrow => List.zipWith (fun Xv Yv => sampleField ops time Xv Yv) Xrow Yrow) (List.map (fun _ => linspace (0 : α) (2 * ops.pi) nx) (linspace (0 : α) (2 * ops.pi) ny)) (List.map (fun yj => List.map (fun _ => yj) (linspace (0 : α) (2 * ops.pi) nx)) (linspace (0 : α) (2 * ops.pi) ny))) (linspace (0 : α) 2 nt)).length := by rw [List.length_map, hlent]; exact hi
      rw [List.getD_eq_getElem _ _ hbu,
        List.getD_eq_getElem _ _ hbti, List.getElem_map]
    have hXlen : (generate_sample_data ops nx ny nt).X.length = ny := by
      simp only [generate_sample_data, meshgrid, List.length_map, hleny]
    have hYlen : (generate_sample_data ops nx ny nt).Y.length = ny := by
      simp only [generate_sample_data, meshgrid, List.length_map, hleny]
    have hbXj : j < (generate_sample_data ops nx ny nt).X.length := by rw [hXlen]; exact hj
    have hbYj2 : j < (generate_sample_data ops nx ny nt).Y.length := by rw [hYlen]; exact hj
    have hbxk : k < (linspace (0 : α) (2 * ops.pi) nx).length := by rw [hlenx]; exact hk
    have hbck : k < (List.map (fun _ => (linspace (0 : α) (2 * ops.pi) ny).getD j 0) (linspace (0 : α) (2 * ops.pi) nx)).length := by rw [List.length_map, hlenx]; exact hk
    rw [hui, getD_zipWith _ hbXj hbYj2 [] [] [],
      hXrow, hYrow,
      getD_zipWith _ hbxk hbck 0 0 0,
      hconst, hxk, hyj, hti]
    simp only [sampleField]

/-- Witness for C3 at `nx = ny = nt = 1`, `i = j = k = 0`, over `ℚ` with
identity scalar operations. -/
theorem generate_sample_data_values_witness :
    ((0 : ℕ) < 1 ∧ (0 : ℕ) < 1 ∧ (0 : ℕ) < 1) ∧
    (((generate_sample_data (ScalarOps.mk id id id 0 : ScalarOps ℚ)
          1 1 1).X.getD 0 []).getD 0 0 =
        2 * (ScalarOps.mk id id id 0 : ScalarOps ℚ).pi * ((0 : ℕ) : ℚ) /
          (((1 : ℕ) : ℚ) - 1) ∧
      ((generate_sample_data (ScalarOps.mk id id id 0 : ScalarOps ℚ)
          1 1 1).Y.getD 0 []).getD 0 0 =
        2 * (ScalarOps.mk id id id 0 : ScalarOps ℚ).pi * ((0 : ℕ) : ℚ) /
          (((1 : ℕ) : ℚ) - 1) ∧
      (generate_sample_data (ScalarOps.mk id id id 0 : ScalarOps ℚ)
          1 1 1).t.getD 0 0 =
        2 * ((0 : ℕ) : ℚ) / (((1 : ℕ) : ℚ) - 1) ∧
      (((generate_sample_data (ScalarOps.mk id id id 0 : ScalarOps ℚ)
          1 1 1).u.getD 0 []).getD 0 []).getD 0 0 =
        (ScalarOps.mk id id id 0 : ScalarOps ℚ).sin
            (2 * (ScalarOps.mk id id id 0 : ScalarOps ℚ).pi *
              ((0 : ℕ) : ℚ) / (((1 : ℕ) : ℚ) - 1) +
              2 * ((0 : ℕ) : ℚ) / (((1 : ℕ) : ℚ) - 1)) *
          (ScalarOps.mk id id id 0 : ScalarOps ℚ).cos
            (2 * (ScalarOps.mk id id id 0 : ScalarOps ℚ).pi *
              ((0 : ℕ) : ℚ) / (((1 : ℕ) : ℚ) - 1) +
              (1 / 2) * (2 * ((0 : ℕ) : ℚ) / (((1 : ℕ) : ℚ) - 1))) *
          (ScalarOps.mk id id id 0 : ScalarOps ℚ).exp
            (-(1 / 10) * (2 * ((0 : ℕ) : ℚ) / (((1 : ℕ) : ℚ) - 1))) +
        (3 / 10) * (ScalarOps.mk id id id 0 : ScalarOps ℚ).sin
            (2 * (2 * (ScalarOps.mk id id id 0 : ScalarOps ℚ).pi *
              ((0 : ℕ) : ℚ) / (((1 : ℕ) : ℚ) - 1)) -
              2 * ((0 : ℕ) : ℚ) / (((1 : ℕ) : ℚ) - 1)) *
          (ScalarOps.mk id id id 0 : ScalarOps ℚ).sin
            (2 * (ScalarOps.mk id id id 0 : ScalarOps ℚ).pi *
              ((0 : ℕ) : ℚ) / (((1 : ℕ) : ℚ) - 1) +
              2 * ((0 : ℕ) : ℚ) / (((1 : ℕ) : ℚ) - 1))) :=
  ⟨⟨by decide, by decide, by decide⟩,
    generate_sample_data_values (ScalarOps.mk id id id 0 : ScalarOps ℚ)
      1 1 1 0 0 0 (by decide) (by decide) (by decide)⟩

end PDEViz
